import Mathlib

/-!
Verification of the WB_scripts identifier-reconciliation and batch-update
pipeline (src/update_wb_stocks_prices.py and src/clear_wb_stocks.py).

The Python source is shallowly embedded: Python strings become Lean
strings (character lists), Python dicts (insertion-ordered, last-write-wins)
become ordered association lists, Python floats carrying decimal prices are
modelled as exact rationals (faithful at every concrete input used below,
where binary floating point and exact arithmetic agree), and the network is
modelled as a stream of HTTP responses indexed by request number.
-/

namespace WB

/-! ## Python string primitives

Models of the str methods used by the scripts.  Python lower and upper
fold ASCII letters and the Cyrillic letters appearing in the header labels;
the embedding maps exactly those ranges. -/

/-- Model of Python str.lower for the characters the scripts compare:
ASCII letters and Cyrillic А..Я plus Ё. -/
def pyLowerChar (c : Char) : Char :=
  if 0x41 ≤ c.toNat ∧ c.toNat ≤ 0x5A then Char.ofNat (c.toNat + 0x20)
  else if 0x410 ≤ c.toNat ∧ c.toNat ≤ 0x42F then Char.ofNat (c.toNat + 0x20)
  else if c.toNat = 0x401 then Char.ofNat 0x451
  else c

/-- Model of Python str.upper for ASCII letters and Cyrillic а..я plus ё. -/
def pyUpperChar (c : Char) : Char :=
  if 0x61 ≤ c.toNat ∧ c.toNat ≤ 0x7A then Char.ofNat (c.toNat - 0x20)
  else if 0x430 ≤ c.toNat ∧ c.toNat ≤ 0x44F then Char.ofNat (c.toNat - 0x20)
  else if c.toNat = 0x451 then Char.ofNat 0x401
  else c

def pyLower (s : String) : String := String.mk (s.data.map pyLowerChar)

def pyUpper (s : String) : String := String.mk (s.data.map pyUpperChar)

/-- Python s.replace(" ", ""): removes every space character. -/
def removeSpaces (s : String) : String :=
  String.mk (s.data.filter (fun c => c ≠ ' '))

/-- Python s.replace("-", "").replace("/", "").replace("_", ""). -/
def removeSyms (s : String) : String :=
  String.mk (s.data.filter (fun c => c ≠ '-' ∧ c ≠ '/' ∧ c ≠ '_'))

/-- Python str.strip: remove whitespace from both ends. -/
def pyStrip (s : String) : String :=
  String.mk (((s.data.dropWhile Char.isWhitespace).reverse.dropWhile
    Char.isWhitespace).reverse)

/-- Occurrence of pat as a contiguous sub-list. -/
def subOccurs (pat : List Char) : List Char → Bool
  | [] => pat.isEmpty
  | c :: rest => pat.isPrefixOf (c :: rest) || subOccurs pat rest

/-- Python substring test (pat in s). -/
def containsSub (s pat : String) : Bool :=
  subOccurs pat.data s.data

/-- Python truthiness of an optional string: None and the empty string are
falsy.  Returns the string when truthy. -/
def pyTruthyStr : Option String → Option String
  | none => none
  | some s => if s.isEmpty then none else some s

/-- Python truthiness of an optional integer: None and 0 are falsy. -/
def pyTruthyInt : Option Int → Option Int
  | none => none
  | some n => if n = 0 then none else some n

/-! ## Python dict model

Python dicts preserve insertion order and update a key in place; the
normalization-fallback scan of the scripts iterates items in that order. -/

def dictInsert {β : Type} (d : List (String × β)) (k : String) (v : β) :
    List (String × β) :=
  if d.any (fun p => p.1 == k) then
    d.map (fun p => if p.1 == k then (k, v) else p)
  else
    d ++ [(k, v)]

def dictGet? {β : Type} (d : List (String × β)) (k : String) : Option β :=
  (d.find? (fun p => p.1 == k)).map (fun p => p.2)

/-! ## Numeric model

Python int(x) on a float truncates toward zero; prices are modelled as
exact rationals (the decimal inputs and the multiplier 1.5 used in the
theorems below are handled identically by binary floats and by ℚ). -/

/-- Python int(q): truncation toward zero. -/
def pyInt (q : ℚ) : ℤ := if q < 0 then ⌈q⌉ else ⌊q⌋

/-- Config.PRICE_MULTIPLIER in update_wb_stocks_prices.py (value 1.5). -/
def PRICE_MULTIPLIER : ℚ := 3 / 2

/-- Line 588 of update_wb_stocks_prices.py:
new_price = int(product price times Config.PRICE_MULTIPLIER). -/
def newPrice (p : ℚ) : ℤ := pyInt (p * PRICE_MULTIPLIER)

/-! ## Data model -/

/-- A price-update dict as accumulated in all_prices_data and passed to
update_prices: optional integer fields nmID and nmId (update_prices reads
both spellings), price and optional discount (read with default 0). -/
structure PriceItem where
  nmID : Option Int
  nmId : Option Int
  price : Int
  discount : Option Int
deriving DecidableEq

/-- One entry of the JSON "data" array actually posted by update_prices. -/
structure SentPrice where
  nmID : Int
  price : Int
  discount : Int
deriving DecidableEq

/-- One entry of the JSON "stocks" array sent by update_stocks. -/
structure StockItem where
  sku : String
  amount : Int
deriving DecidableEq

/-- A parsed brand-file product row as produced by read_brand_file:
the manufacturer article (or None), the parsed price, and the parsed
quantity. -/
structure Product where
  manufacturerArt : Option String
  price : ℚ
  amount : Int

/-- One data row of the mapping spreadsheet (columns B, C, G).  nmidCell is
the already-converted int(float(cell)) value, none when the cell is NaN or
the conversion raises. -/
structure MapRow where
  art : String
  nmidCell : Option Int
  barcode : String

/-- The lookup dictionaries built by read_mapping_files. -/
structure Mappings where
  artToNmid : List (String × Int)
  barcodeToNmid : List (String × Int)
  manufacturerArtToNmid : List (String × Int)
  artToBarcode : List (String × String)
deriving DecidableEq

/-! ## Mapping loader (read_mapping_files, lines 146-183) -/

/-- Header labels skipped for the article cell (line 153). -/
def headerArtLabels : List String := ["артикул", "артикул производителя", "nan", ""]

/-- Header labels skipped for the barcode cell (line 156). -/
def headerBarcodeLabels : List String :=
  ["баркод", "barcode", "баркод в системе", "nan", ""]

/-- Processing of one mapping row (loop body, lines 146-183). -/
def mapStep (m : Mappings) (r : MapRow) : Mappings :=
  let manufacturerArt := pyStrip r.art
  if headerArtLabels.contains (pyLower manufacturerArt) || manufacturerArt.isEmpty then
    m
  else
    let barcode := pyStrip r.barcode
    if r.nmidCell.isNone || barcode.isEmpty
        || headerBarcodeLabels.contains (pyLower barcode) || barcode.length ≤ 5 then
      m
    else
      match r.nmidCell with
      | none => m
      | some nmid =>
        let clean := pyUpper (removeSpaces manufacturerArt)
        let norm := removeSyms clean
        { artToNmid :=
            dictInsert (dictInsert (dictInsert m.artToNmid manufacturerArt nmid)
              clean nmid) norm nmid,
          barcodeToNmid := dictInsert m.barcodeToNmid barcode nmid,
          manufacturerArtToNmid := dictInsert m.manufacturerArtToNmid clean nmid,
          artToBarcode :=
            dictInsert (dictInsert (dictInsert m.artToBarcode manufacturerArt barcode)
              clean barcode) norm barcode }

def emptyMappings : Mappings := ⟨[], [], [], []⟩

def buildMappings (rows : List MapRow) : Mappings :=
  rows.foldl mapStep emptyMappings

/-! ## Tiered article resolution (lines 556-574, and 604-615 for barcodes) -/

/-- Key normalization used by the fallback scan (lines 570, 612):
strip, remove spaces, upper-case, remove the symbols dash slash underscore. -/
def keyNormalized (s : String) : String :=
  removeSyms (pyUpper (removeSpaces (pyStrip s)))

/-- The three-tier lookup the main loop performs against art_to_nmid
(lines 561-574) and, with the same structure, against
manufacturer_art_to_barcode (lines 604-615): exact key, then the
space-stripped upper-cased key, then a linear scan comparing normalized
forms.  The argument art is the already-stripped query article. -/
def tieredLookup {β : Type} (d : List (String × β)) (art : String) : Option β :=
  let clean := pyUpper (removeSpaces art)
  let norm := removeSyms clean
  match dictGet? d art with
  | some v => some v
  | none =>
    match dictGet? d clean with
    | some v => some v
    | none => (d.find? (fun p => keyNormalized p.1 == norm)).map (fun p => p.2)

/-- The resolve contract as the specification words it: tier 1 (exact raw
match) orElse tier 2 (whitespace-stripped upper-cased form) orElse tier 3
(linear scan on symbol-stripped normalized forms), first hit wins. -/
def specResolve {β : Type} (d : List (String × β)) (art : String) : Option β :=
  (dictGet? d art).orElse fun _ =>
    (dictGet? d (pyUpper (removeSpaces art))).orElse fun _ =>
      (d.find? (fun p =>
        keyNormalized p.1 == removeSyms (pyUpper (removeSpaces art)))).map
        (fun p => p.2)

/-! ## Reconciliation (main loop over products, lines 546-623) -/

structure ReconcileOut where
  prices : List PriceItem
  stocks : List StockItem
  matched : Nat
  unmatched : Nat
deriving DecidableEq

/-- The per-brand reconciliation loop: skip products with a falsy article
(line 551), resolve the article through the three tiers (lines 561-574,
unmatched on miss), emit the price dict with int(price * multiplier)
(lines 588-593), and emit the stock dict when a barcode resolves
(lines 604-623).  Stocks all target warehouse 1619436. -/
def reconcile (m : Mappings) : List Product → ReconcileOut
  | [] => ⟨[], [], 0, 0⟩
  | p :: ps =>
    let r := reconcile m ps
    match pyTruthyStr p.manufacturerArt with
    | none => ⟨r.prices, r.stocks, r.matched, r.unmatched + 1⟩
    | some s =>
      let art := pyStrip s
      match tieredLookup m.artToNmid art with
      | none => ⟨r.prices, r.stocks, r.matched, r.unmatched + 1⟩
      | some nmid =>
        let priceItem : PriceItem := ⟨some nmid, none, newPrice p.price, some 0⟩
        let stocks :=
          match tieredLookup m.artToBarcode art with
          | some b => if b.isEmpty then r.stocks else ⟨b, p.amount⟩ :: r.stocks
          | none => r.stocks
        ⟨priceItem :: r.prices, stocks, r.matched + 1, r.unmatched⟩

/-! ## Batch partitioning

Both scripts slice a list into consecutive batches with
for i in range(0, len(lst), batch_size): batch = lst[i:i+batch_size]
(update_wb_stocks_prices.py lines 661-662 and 684-685,
clear_wb_stocks.py lines 293-294).  The fuel argument of the auxiliary
function starts at the list length and strictly dominates the recursion
depth, keeping the definition structurally recursive. -/

def sliceBatchesAux {α : Type} (bs : Nat) : Nat → List α → List (List α)
  | _, [] => []
  | 0, _ :: _ => []
  | fuel + 1, a :: l =>
    match bs with
    | 0 => []
    | b + 1 => ((a :: l).take (b + 1)) :: sliceBatchesAux (b + 1) fuel (l.drop b)

def sliceBatches {α : Type} (bs : Nat) (l : List α) : List (List α) :=
  sliceBatchesAux bs l.length l

/-! ## Price payload construction (update_prices, lines 450-460) -/

/-- item.get("nmID") or item.get("nmId") with Python truthiness. -/
def effNmID (it : PriceItem) : Option Int :=
  match pyTruthyInt it.nmID with
  | some n => some n
  | none => pyTruthyInt it.nmId

/-- The data_items list built by update_prices (lines 450-458): entries
without a truthy nmID or nmId are skipped, the rest keep their order and
are sent as nmID, price, discount (discount defaulting to 0). -/
def buildDataItems : List PriceItem → List SentPrice
  | [] => []
  | it :: rest =>
    match effNmID it with
    | some n => ⟨n, it.price, it.discount.getD 0⟩ :: buildDataItems rest
    | none => buildDataItems rest

/-- The sequence of payloads transmitted by the price-dispatch loop of main
(lines 681-698): the accumulated list is sliced into batches of 100 and
each batch goes through update_prices unchanged. -/
def dispatchedPricePayloads (l : List PriceItem) : List (List SentPrice) :=
  (sliceBatches 100 l).map buildDataItems

/-! ## Network model

A run of a dispatch function is determined by the stream of HTTP responses
its successive requests receive; net i is the response to request i. -/

structure HttpResp where
  status : Nat
  errorText : Option String
  errorCode : Option String
  bodyText : String

/-- success flag, number of backoff sleeps, number of requests issued. -/
structure NetResult where
  success : Bool
  sleeps : Nat
  requests : Nat
deriving DecidableEq

/-- The benign-marker test of update_prices (lines 478 and 493). -/
def alreadySetIn (t : String) : Bool :=
  containsSub (pyLower t) "already set" || containsSub (pyLower t) "уже установлены"

/-- The errorText field check of the 400 branch (lines 474-483); none models
a body that is not JSON or has no errorText field, in which case the branch
falls through to raise_for_status. -/
def errTextAlreadySet (r : HttpResp) : Bool :=
  match r.errorText with
  | some t => alreadySetIn t
  | none => false

/-- Classification of the final response of update_prices: the 400
already-set branch returns True (lines 474-483), any status below 400
passes raise_for_status and returns True (lines 485-486), and otherwise the
except branch returns True exactly when the body text carries the
already-set marker (lines 487-496). -/
def pricesRespOk (r : HttpResp) : Bool :=
  if r.status == 400 && errTextAlreadySet r then true
  else if r.status < 400 then true
  else alreadySetIn r.bodyText

/-- update_prices (lines 462-496): one POST; on 429 one sleep and one
retry, then the final response is classified. -/
def updatePricesNet (net : Nat → HttpResp) : NetResult :=
  if (net 0).status == 429 then ⟨pricesRespOk (net 1), 1, 2⟩
  else ⟨pricesRespOk (net 0), 0, 1⟩

/-- update_stocks response classification: raise_for_status only
(lines 427-433). -/
def stocksRespOk (r : HttpResp) : Bool := r.status < 400

/-- update_stocks (lines 417-433): one PUT; on 429 one sleep and one retry. -/
def updateStocksNet (net : Nat → HttpResp) : NetResult :=
  if (net 0).status == 429 then ⟨stocksRespOk (net 1), 1, 2⟩
  else ⟨stocksRespOk (net 0), 0, 1⟩

/-- The 409 CargoWarehouseRestriction recognition of clear_stocks_by_barcodes
(lines 157-163). -/
def cargoRestricted (r : HttpResp) : Bool :=
  r.status == 409 &&
    (match r.errorCode with
     | some c => containsSub c "CargoWarehouseRestriction"
     | none => false)

/-- The retry loop of clear_stocks_by_barcodes (lines 144-232) with
max_retries = 3: 429 sleeps and retries; a cargo-restricted 409 falls back
to one PUT per barcode and returns True regardless of their outcomes
(lines 157-179); below 400 returns True; any other error retries without a
sleep until the final attempt, then returns False (lines 186-230); an
exhausted loop returns False (line 232). -/
def clearStocksGo (net : Nat → HttpResp) (nBarcodes : Nat) :
    Nat → Nat → Nat → NetResult
  | 0, reqIdx, sleeps => ⟨false, sleeps, reqIdx⟩
  | remaining + 1, reqIdx, sleeps =>
    let r := net reqIdx
    if r.status == 429 then
      clearStocksGo net nBarcodes remaining (reqIdx + 1) (sleeps + 1)
    else if cargoRestricted r then ⟨true, sleeps, reqIdx + 1 + nBarcodes⟩
    else if r.status < 400 then ⟨true, sleeps, reqIdx + 1⟩
    else if remaining == 0 then ⟨false, sleeps, reqIdx + 1⟩
    else clearStocksGo net nBarcodes remaining (reqIdx + 1) sleeps

def clearStocksNet (net : Nat → HttpResp) (nBarcodes : Nat) : NetResult :=
  clearStocksGo net nBarcodes 3 0 0

/-! ## Pipeline traces

Ordered traces of the externally visible events of the two drivers; one
mutating event per dispatch call (retries inside a call do not add
events). -/

inductive Ev where
  | confirmPrompt (accepted : Bool)
  | zeroPut (warehouseId : Nat) (skus : List String)
  | stockPut (warehouseId : Nat) (stocks : List StockItem)
  | pricePost (data : List SentPrice)
deriving DecidableEq

def isMutatingEv : Ev → Bool
  | .confirmPrompt _ => false
  | .zeroPut _ _ => true
  | .stockPut _ _ => true
  | .pricePost _ => true

/-- clear_wb_stocks.py line 275. -/
def EXCLUDED_WAREHOUSE_ID : Nat := 1620586

/-- update_wb_stocks_prices.py lines 597 and 650. -/
def TARGET_WAREHOUSE_ID : Nat := 1619436

/-- The confirmation gate of update main (lines 643-644):
input answer, stripped and lower-cased, accepted when in
[yes, y, да, д]. -/
def confirmAccepted (ans : String) : Bool :=
  let s := pyLower (pyStrip ans)
  s == "yes" || s == "y" || s == "да" || s == "д"

/-- clear_all_stocks (clear_wb_stocks.py lines 252-309): fetch warehouses
(return if none), read identifiers (return if none), drop the excluded
warehouse (return if none remain), then for every remaining warehouse zero
the barcodes in batches of 100.  There is no confirmation step. -/
def clearAllStocksTrace (warehouses : List Nat) (barcodes : List String)
    (nmIDs : List Int) : List Ev :=
  if warehouses.isEmpty then []
  else if barcodes.isEmpty && nmIDs.isEmpty then []
  else
    let remaining := warehouses.filter (fun w => w != EXCLUDED_WAREHOUSE_ID)
    if remaining.isEmpty then []
    else
      (remaining.map (fun w =>
        if barcodes.isEmpty then []
        else (sliceBatches 100 barcodes).map (fun b => Ev.zeroPut w b))).flatten

/-- The dispatch phase of update main (lines 632-698): return silently when
nothing was accumulated, otherwise prompt; a rejected answer ends the run,
an accepted one dispatches the stock batches for warehouse 1619436 and then
the price batches.  allStocks is the 1619436 entry of all_stocks_data
(none when the key was never created). -/
def mainDispatchTrace (allStocks : Option (List StockItem))
    (allPrices : List PriceItem) (ans : String) : List Ev :=
  if allStocks.isNone && allPrices.isEmpty then []
  else
    Ev.confirmPrompt (confirmAccepted ans) ::
      (if confirmAccepted ans then
        (match allStocks with
         | some sd => (sliceBatches 100 sd).map (fun b => Ev.stockPut TARGET_WAREHOUSE_ID b)
         | none => []) ++
        (sliceBatches 100 allPrices).map (fun b => Ev.pricePost (buildDataItems b))
      else [])

/-! ## Whole-run outcome and process exit code (main, lines 499-706) -/

/-- The inputs determining the control flow of main: the configured token,
whether GET warehouses succeeds and its result, the mapping rows, the
concatenated brand products and the confirmation answer. -/
structure RunEnv where
  wbApiToken : String
  warehousesOk : Bool
  warehouses : List Nat
  mappingRows : List MapRow
  products : List Product
  confirmAnswer : String

inductive RunResult where
  | configError
  | warehousesError
  | noWarehouses
  | noData
  | cancelled
  | completed
deriving DecidableEq

/-- The path main takes: Config.validate raises on an empty token, caught
at lines 505-509; get_warehouses errors are caught at lines 513-517; empty
warehouse list returns at lines 519-521; no accumulated data returns at
lines 632-634; a rejected confirmation returns at lines 643-646; otherwise
the run completes.  all_prices_data and all_stocks_data are nonempty
exactly when some product matched. -/
def mainResult (env : RunEnv) : RunResult :=
  if env.wbApiToken.isEmpty then .configError
  else if !env.warehousesOk then .warehousesError
  else if env.warehouses.isEmpty then .noWarehouses
  else
    let out := reconcile (buildMappings env.mappingRows) env.products
    if out.matched == 0 then .noData
    else if !(confirmAccepted env.confirmAnswer) then .cancelled
    else .completed

/-- Every failure path of main prints a message and returns None, and the
module-level guard (lines 705-706) calls main() without sys.exit, so the
interpreter ends the process with code 0 on every modelled outcome. -/
def scriptExitCode (env : RunEnv) : Nat :=
  match mainResult env with
  | .configError => 0
  | .warehousesError => 0
  | .noWarehouses => 0
  | .noData => 0
  | .cancelled => 0
  | .completed => 0

/-! ## Claim-shaped comparison definitions -/

/-- The payload described by claim C10: exactly the order-preserved subset
of records whose nmID field itself is truthy. -/
def claimedPricePayload (items : List PriceItem) : List SentPrice :=
  (items.filter (fun it => (pyTruthyInt it.nmID).isSome)).map
    (fun it => ⟨(pyTruthyInt it.nmID).getD 0, it.price, it.discount.getD 0⟩)

/-! ## Concrete inputs used by the theorems -/

/-- Scenario A mapping row: article AG 01007, nmID 123456, barcode
4600000000017. -/
def exampleRow : MapRow := ⟨"AG 01007", some 123456, "4600000000017"⟩

def exampleMappings : Mappings := buildMappings [exampleRow]

/-- Two brand products whose articles both resolve to nmID 123456. -/
def dupProducts : List Product :=
  [⟨some "AG01007", 10, 1⟩, ⟨some "AG 01007", 20, 2⟩]

/-- 250 price-update records for the batching scenario. -/
def manyPrices : List PriceItem :=
  (List.range 250).map (fun n => ⟨some ((n : Int) + 1), none, (n : Int), some 0⟩)

/-- A reconciled product with a negative source price. -/
def negProduct : Product := ⟨some "AG01007", -1, 5⟩

/-- A price dict with no nmID key but a truthy nmId key. -/
def nmIdOnlyItem : PriceItem := ⟨none, some 7, 10, some 0⟩

/-- An environment with the API token missing. -/
def noTokenEnv : RunEnv := ⟨"", true, [1], [exampleRow], [], "yes"⟩

/-- An environment with a token but an unreachable API. -/
def apiDownEnv : RunEnv := ⟨"token", false, [1], [exampleRow], [], "yes"⟩

/-- Responses: 429 to the first request, 200 to every later one. -/
def retryNet : Nat → HttpResp :=
  fun i => if i == 0 then ⟨429, none, none, "too many requests"⟩
           else ⟨200, none, none, "ok"⟩

/-- Responses: 400 with an already-set errorText to the first request. -/
def alreadySetNet : Nat → HttpResp :=
  fun i => if i == 0 then
             ⟨400, some "this price is already set for the nomenclature", none,
              "error"⟩
           else ⟨200, none, none, "ok"⟩

/-! ## Shared lemmas -/

theorem sliceBatchesAux_flatten {α : Type} (b : Nat) :
    ∀ (fuel : Nat) (l : List α), l.length ≤ fuel →
    (sliceBatchesAux (b + 1) fuel l).flatten = l := by
  intro fuel
  induction fuel with
  | zero =>
    intro l hl
    cases l with
    | nil => simp [sliceBatchesAux]
    | cons a t => simp at hl
  | succ fuel ih =>
    intro l hl
    cases l with
    | nil => simp [sliceBatchesAux]
    | cons a t =>
      have hd : (t.drop b).length ≤ fuel := by
        simp only [List.length_drop]
        simp at hl
        omega
      have hstep : (sliceBatchesAux (b + 1) (fuel + 1) (a :: t)).flatten =
          (a :: t).take (b + 1) ++ (sliceBatchesAux (b + 1) fuel (t.drop b)).flatten := by
        simp [sliceBatchesAux]
      rw [hstep, ih _ hd]
      exact List.take_append_drop _ _

theorem sliceBatches_flatten {α : Type} (bs : Nat) (l : List α) (h : 0 < bs) :
    (sliceBatches bs l).flatten = l := by
  cases bs with
  | zero => omega
  | succ b => exact sliceBatchesAux_flatten b l.length l le_rfl

theorem buildDataItems_append (l1 l2 : List PriceItem) :
    buildDataItems (l1 ++ l2) = buildDataItems l1 ++ buildDataItems l2 := by
  induction l1 with
  | nil => simp [buildDataItems]
  | cons it rest ih => cases h : effNmID it <;> simp [buildDataItems, h, ih]

theorem sliceBatchesAux_payloads (b : Nat) :
    ∀ (fuel : Nat) (l : List PriceItem), l.length ≤ fuel →
    ((sliceBatchesAux (b + 1) fuel l).map buildDataItems).flatten = buildDataItems l := by
  intro fuel
  induction fuel with
  | zero =>
    intro l hl
    cases l with
    | nil => simp [sliceBatchesAux, buildDataItems]
    | cons a t => simp at hl
  | succ fuel ih =>
    intro l hl
    cases l with
    | nil => simp [sliceBatchesAux, buildDataItems]
    | cons a t =>
      have hd : (t.drop b).length ≤ fuel := by
        simp only [List.length_drop]
        simp at hl
        omega
      have hstep :
          ((sliceBatchesAux (b + 1) (fuel + 1) (a :: t)).map buildDataItems).flatten =
          buildDataItems ((a :: t).take (b + 1)) ++
            ((sliceBatchesAux (b + 1) fuel (t.drop b)).map buildDataItems).flatten := by
        simp [sliceBatchesAux]
      rw [hstep, ih _ hd, ← buildDataItems_append]
      rw [show (t.drop b) = (a :: t).drop (b + 1) from rfl, List.take_append_drop]

/-! ## Claim theorems -/

/-- C1, counterexample: two reachable products resolving to the same nmID
yield an accumulated list whose single dispatch payload carries two
PriceUpdates for platform_id 123456 — no deduplication happens before
batching, refuting the at-most-one-per-platform_id invariant. -/
theorem c1_counterexample :
    dispatchedPricePayloads (reconcile exampleMappings dupProducts).prices =
      [[⟨123456, 15, 0⟩, ⟨123456, 30, 0⟩]] ∧
    ¬ (([⟨123456, 15, 0⟩, ⟨123456, 30, 0⟩] : List SentPrice).map
        SentPrice.nmID).Nodup := by
  constructor
  · have h0a : pyTruthyStr (some "AG01007") = some "AG01007" := by decide
    have h0b : pyTruthyStr (some "AG 01007") = some "AG 01007" := by decide
    have h1a : tieredLookup exampleMappings.artToNmid (pyStrip "AG01007") =
        some 123456 := by decide
    have h1b : tieredLookup exampleMappings.artToNmid (pyStrip "AG 01007") =
        some 123456 := by decide
    have h2a : tieredLookup exampleMappings.artToBarcode (pyStrip "AG01007") =
        some "4600000000017" := by decide
    have h2b : tieredLookup exampleMappings.artToBarcode (pyStrip "AG 01007") =
        some "4600000000017" := by decide
    have hn1 : newPrice 10 = 15 := by norm_num [newPrice, pyInt, PRICE_MULTIPLIER]
    have hn2 : newPrice 20 = 30 := by norm_num [newPrice, pyInt, PRICE_MULTIPLIER]
    have hrec : (reconcile exampleMappings dupProducts).prices =
        [⟨some 123456, none, 15, some 0⟩, ⟨some 123456, none, 30, some 0⟩] := by
      simp [reconcile, dupProducts, h0a, h0b, h1a, h1b, h2a, h2b, hn1, hn2]
    rw [hrec]
    decide
  · decide

/-- C1, amended: no deduplication by platform_id happens anywhere; the
accumulated price-update list is partitioned into batches as-is, each
dispatch call transmits its batch filtered only for a truthy nmID or nmId
(duplicates included), and the concatenation of all transmitted payloads is
exactly that filter of the full accumulated list, order-preserved. -/
theorem c1_no_dedup_payloads :
    ∀ l : List PriceItem, (dispatchedPricePayloads l).flatten = buildDataItems l := by
  intro l
  unfold dispatchedPricePayloads sliceBatches
  exact sliceBatchesAux_payloads 99 l.length l le_rfl

/-- C2, counterexample: a run of the stock-zeroing pipeline with one
warehouse and one barcode issues its zeroing PUT with no confirmation
event of any kind in the trace. -/
theorem c2_counterexample :
    clearAllStocksTrace [1] ["4600000000017"] [] =
      [Ev.zeroPut 1 ["4600000000017"]] ∧
    (clearAllStocksTrace [1] ["4600000000017"] []).any isMutatingEv = true ∧
    (clearAllStocksTrace [1] ["4600000000017"] []).any
      (fun e => !(isMutatingEv e)) = false := by decide

/-- C2, amended: the interactive yes/no gate lives in the stock-and-price
update pipeline, not in the zeroing pipeline: in update main every trace
containing a mutating dispatch starts with an affirmatively answered
confirmation prompt, and a non-affirmative answer yields a trace with no
mutating event at all. -/
theorem c2_confirm_gate (allStocks : Option (List StockItem))
    (allPrices : List PriceItem) (ans : String) :
    ((mainDispatchTrace allStocks allPrices ans).any isMutatingEv = true →
      (mainDispatchTrace allStocks allPrices ans).head? =
        some (Ev.confirmPrompt true)) ∧
    (confirmAccepted ans = false →
      (mainDispatchTrace allStocks allPrices ans).all
        (fun e => !(isMutatingEv e)) = true) := by
  by_cases hempty : (allStocks.isNone && allPrices.isEmpty) = true
  · constructor
    · intro hany
      simp [mainDispatchTrace, hempty] at hany
    · intro _
      simp [mainDispatchTrace, hempty]
  · by_cases hc : confirmAccepted ans = true
    · constructor
      · intro _
        simp [mainDispatchTrace, hempty, hc]
      · intro hfalse
        rw [hc] at hfalse
        exact absurd hfalse (by simp)
    · have hc2 : confirmAccepted ans = false := by
        cases h : confirmAccepted ans
        · rfl
        · exact absurd h hc
      constructor
      · intro hany
        simp [mainDispatchTrace, hempty, hc2, isMutatingEv] at hany
      · intro _
        simp [mainDispatchTrace, hempty, hc2, isMutatingEv]

/-- C2, witness for the amended theorem at a concrete run. -/
theorem c2_confirm_gate_witness :
    (mainDispatchTrace (some [⟨"4600000000017", 0⟩]) [] "yes").head? =
      some (Ev.confirmPrompt true) :=
  (c2_confirm_gate (some [⟨"4600000000017", 0⟩]) [] "yes").1 (by decide)

/-- C3, counterexample: with the API token absent main takes the
configuration-error path, yet the process exit code is 0, refuting the
claimed non-zero exit. -/
theorem c3_counterexample :
    mainResult noTokenEnv = RunResult.configError ∧
    ¬ (scriptExitCode noTokenEnv ≠ 0) := by decide

/-- C3, amended: the process exits with code 0 on every outcome — also on
configuration-validation failure and on an unreachable API, which are
reported by printed messages only; the zero exit on a completed run with
partial unmatched items holds. -/
theorem c3_exit_always_zero (env : RunEnv) :
    scriptExitCode env = 0 ∧
    (env.wbApiToken.isEmpty = true → mainResult env = RunResult.configError) ∧
    (env.wbApiToken.isEmpty = false → env.warehousesOk = false →
      mainResult env = RunResult.warehousesError) := by
  refine ⟨?_, ?_, ?_⟩
  · cases h : mainResult env <;> simp [scriptExitCode, h]
  · intro h
    simp [mainResult, h]
  · intro h1 h2
    simp [mainResult, h1, h2]

/-- C3, witness: the amended theorem at an environment whose API is
unreachable. -/
theorem c3_exit_always_zero_witness :
    scriptExitCode apiDownEnv = 0 ∧
    mainResult apiDownEnv = RunResult.warehousesError :=
  ⟨(c3_exit_always_zero apiDownEnv).1,
   (c3_exit_always_zero apiDownEnv).2.2 (by decide) (by decide)⟩

/-- C4: the resolution the main loop performs equals the three ordered
tiers of the specification (exact raw key, space-stripped upper-cased key,
linear scan on symbol-stripped normalized forms, first hit wins), and a
product whose article resolves in no tier contributes to neither output
list and increments the unmatched counter by one. -/
theorem c4_tiered_resolution :
    (∀ (d : List (String × Int)) (art : String),
      tieredLookup d art = specResolve d art) ∧
    (∀ (m : Mappings) (p : Product) (ps : List Product) (s : String),
      pyTruthyStr p.manufacturerArt = some s →
      tieredLookup m.artToNmid (pyStrip s) = none →
      reconcile m (p :: ps) =
        ⟨(reconcile m ps).prices, (reconcile m ps).stocks,
         (reconcile m ps).matched, (reconcile m ps).unmatched + 1⟩) := by
  constructor
  · intro d art
    unfold tieredLookup specResolve
    cases h1 : dictGet? d art <;>
      cases h2 : dictGet? d (pyUpper (removeSpaces art)) <;>
        simp [h1, h2, Option.orElse]
  · intro m p ps s hs hl
    simp [reconcile, hs, hl]

/-- C4, witness: Scenario B — article UNKNOWN123 matches no tier of the
Scenario A table, is excluded from both outputs and counted unmatched. -/
theorem c4_tiered_resolution_witness :
    reconcile exampleMappings [⟨some "UNKNOWN123", 1, 1⟩] = ⟨[], [], 0, 1⟩ := by
  have h := c4_tiered_resolution.2 exampleMappings ⟨some "UNKNOWN123", 1, 1⟩ []
    "UNKNOWN123" (by decide) (by decide)
  rw [h]
  decide

/-- C5: Scenario A — the table built from row (AG 01007, 123456,
4600000000017) reconciles the brand record (AG01007, price 200, quantity 5)
at multiplier 1.5 to exactly the price update (123456, 300, 0) and the
stock update (4600000000017, 5). -/
theorem c5_scenario_a :
    reconcile exampleMappings [⟨some "AG01007", 200, 5⟩] =
      ⟨[⟨some 123456, none, 300, some 0⟩], [⟨"4600000000017", 5⟩], 1, 0⟩ := by
  have h0 : pyTruthyStr (some "AG01007") = some "AG01007" := by decide
  have h1 : tieredLookup exampleMappings.artToNmid (pyStrip "AG01007") =
      some 123456 := by decide
  have h2 : tieredLookup exampleMappings.artToBarcode (pyStrip "AG01007") =
      some "4600000000017" := by decide
  have h3 : newPrice 200 = 300 := by norm_num [newPrice, pyInt, PRICE_MULTIPLIER]
  have h4 : ("4600000000017" : String).isEmpty = false := by decide
  simp [reconcile, h0, h1, h2, h3, h4]

set_option maxRecDepth 40000 in
/-- C6: batch partitioning is exhaustive and order-preserving —
concatenating the batches reproduces the input exactly — and 250 records at
batch size 100 yield exactly the batch sizes 100, 100, 50 in order. -/
theorem c6_batch_partition :
    (∀ (l : List PriceItem) (bs : Nat), 0 < bs →
      (sliceBatches bs l).flatten = l) ∧
    (sliceBatches 100 manyPrices).map List.length = [100, 100, 50] ∧
    (sliceBatches 100 manyPrices).flatten = manyPrices := by
  refine ⟨fun l bs h => sliceBatches_flatten bs l h, ?_, ?_⟩
  · decide
  · exact sliceBatches_flatten 100 manyPrices (by decide)

/-- C6, witness for the universally quantified part at a concrete list. -/
theorem c6_batch_partition_witness :
    (sliceBatches 100 ([⟨some 1, none, 1, some 0⟩] : List PriceItem)).flatten =
      [⟨some 1, none, 1, some 0⟩] :=
  c6_batch_partition.1 [⟨some 1, none, 1, some 0⟩] 100 (by decide)

/-- C7, counterexample: a reconciled product with source price -1 is
emitted with price int(-1 times 1.5) = -1, while the floor of -1.5 is -2 —
the code truncates toward zero, it does not round down. -/
theorem c7_counterexample :
    (reconcile exampleMappings [negProduct]).prices =
      [⟨some 123456, none, -1, some 0⟩] ∧
    ⌊(-1 : ℚ) * PRICE_MULTIPLIER⌋ = -2 ∧ ((-1 : Int) ≠ -2) := by
  refine ⟨?_, by norm_num [PRICE_MULTIPLIER], by decide⟩
  have h0 : pyTruthyStr (some "AG01007") = some "AG01007" := by decide
  have h1 : tieredLookup exampleMappings.artToNmid (pyStrip "AG01007") =
      some 123456 := by decide
  have h2 : tieredLookup exampleMappings.artToBarcode (pyStrip "AG01007") =
      some "4600000000017" := by decide
  have hn : newPrice (-1) = -1 := by
    norm_num [newPrice, pyInt, PRICE_MULTIPLIER, Int.ceil_neg]
  have h4 : ("4600000000017" : String).isEmpty = false := by decide
  simp [reconcile, negProduct, h0, h1, h2, hn, h4]

/-- C7, amended: for every reconciled product with a nonnegative source
price the emitted price is the integer floor of price times
PRICE_MULTIPLIER (for negative prices the code truncates toward zero);
at multiplier 1.5 source price 100 yields 150 and 99.99 yields 149. -/
theorem c7_price_floor :
    (∀ p : ℚ, 0 ≤ p → newPrice p = ⌊p * PRICE_MULTIPLIER⌋) ∧
    newPrice 100 = 150 ∧ newPrice (9999 / 100) = 149 := by
  refine ⟨?_, ?_, ?_⟩
  · intro p hp
    have hnn : 0 ≤ p * PRICE_MULTIPLIER :=
      mul_nonneg hp (by norm_num [PRICE_MULTIPLIER])
    have hlt : ¬ (p * PRICE_MULTIPLIER < 0) := by linarith
    simp [newPrice, pyInt, hlt]
  · norm_num [newPrice, pyInt, PRICE_MULTIPLIER]
  · norm_num [newPrice, pyInt, PRICE_MULTIPLIER]

/-- C7, witness for the universally quantified part at price 2. -/
theorem c7_price_floor_witness :
    newPrice 2 = ⌊(2 : ℚ) * PRICE_MULTIPLIER⌋ :=
  c7_price_floor.1 2 (by norm_num)

/-- C8: Scenario D — a dispatch whose first response is HTTP 429 and whose
second is HTTP 200 is reported successful with exactly one backoff sleep
and two requests, in all three dispatch functions. -/
theorem c8_retry_then_success (net : Nat → HttpResp) (nBarcodes : Nat)
    (h0 : (net 0).status = 429) (h1 : (net 1).status = 200) :
    updatePricesNet net = ⟨true, 1, 2⟩ ∧
    updateStocksNet net = ⟨true, 1, 2⟩ ∧
    clearStocksNet net nBarcodes = ⟨true, 1, 2⟩ := by
  refine ⟨?_, ?_, ?_⟩
  · simp [updatePricesNet, pricesRespOk, h0, h1]
  · simp [updateStocksNet, stocksRespOk, h0, h1]
  · simp [clearStocksNet, clearStocksGo, cargoRestricted, h0, h1]

/-- C8, witness at a concrete response stream. -/
theorem c8_retry_then_success_witness :
    updatePricesNet retryNet = ⟨true, 1, 2⟩ ∧
    updateStocksNet retryNet = ⟨true, 1, 2⟩ ∧
    clearStocksNet retryNet 5 = ⟨true, 1, 2⟩ :=
  c8_retry_then_success retryNet 5 (by decide) (by decide)

/-- C9: Scenario E — a dispatch whose first response is HTTP 400 with an
errorText carrying the already-set marker is reported successful with zero
sleeps and a single request (no retry). -/
theorem c9_already_set_success (net : Nat → HttpResp)
    (h0 : (net 0).status = 400) (ht : errTextAlreadySet (net 0) = true) :
    updatePricesNet net = ⟨true, 0, 1⟩ := by
  simp [updatePricesNet, pricesRespOk, h0, ht]

/-- C9, witness at a concrete response stream. -/
theorem c9_already_set_success_witness :
    updatePricesNet alreadySetNet = ⟨true, 0, 1⟩ :=
  c9_already_set_success alreadySetNet (by decide) (by decide)

/-- C10, counterexample: a dict whose nmID key is missing but whose nmId
key is 7 is transmitted, refuting the claim that the payload is exactly the
subset of records with a truthy nmID field. -/
theorem c10_counterexample :
    buildDataItems [nmIdOnlyItem] = [⟨7, 10, 0⟩] ∧
    claimedPricePayload [nmIdOnlyItem] = [] ∧
    buildDataItems [nmIdOnlyItem] ≠ claimedPricePayload [nmIdOnlyItem] := by
  decide

/-- C10, amended: update_prices silently drops exactly the entries with
neither a truthy nmID nor a truthy nmId; the transmitted payload is the
order-preserved subset of records with a truthy nmID or nmId, each sent
with the first truthy of the two as its nmID and discount defaulting
to 0. -/
theorem c10_payload_filter :
    ∀ items : List PriceItem,
      buildDataItems items =
        (items.filter (fun it => (effNmID it).isSome)).map
          (fun it => ⟨(effNmID it).getD 0, it.price, it.discount.getD 0⟩) := by
  intro items
  induction items with
  | nil => rfl
  | cons it rest ih => cases h : effNmID it <;> simp [buildDataItems, h, ih]

end WB
